import Mathlib

/-!
Verification development for the CubeSat EPS (electrical power system)
simulation script `eps_simulation.py`.

The script is a single straight-line numpy program: it builds a time grid,
then for every time index `t ≥ 1` and every panel configuration `p` it
computes orbital geometry, generated solar power, subsystem load (with a
safe-mode fallback and a transmission window), and integrates the net
energy into a battery state of charge (SOC), clamped to bounds.

The embedding below follows the source line by line.  Real-valued
floating-point quantities of the program are modelled as real numbers; the
integer-valued time index is a natural number; the six candidate panel
counts are indexed by `Fin 6`.  Since the time step (100 s) and the orbit
period (5700 s) are integers and `time[t] = 100 t` exactly, the float
expression `time % orbit_period` equals the integer `(100 * t) % 5700`.
-/

namespace EPS

noncomputable section

/-! ### Time parameters (source lines 8-12) -/

def dt : ℝ := 100

def orbit_period : ℝ := 95 * 60

def num_orbits : ℕ := 100

/-- Number of entries of `np.arange(0, num_orbits * orbit_period, dt)`:
`arange(0, 570000, 100)` has 5700 entries. -/
def N_t : ℕ := 5700

/-- `time[t] = dt * t` seconds. -/
def timeAt (t : ℕ) : ℝ := dt * t

/-! ### Solar and panel parameters (source lines 17-29) -/

def G_sun : ℝ := 1361

def A_panel : ℝ := 0.1 * 0.1

def packing_eff : ℝ := 0.5

def num_panels : Fin 6 → ℕ := ![1, 2, 3, 4, 5, 6]

def A_total (p : Fin 6) : ℝ := (num_panels p : ℝ) * A_panel * packing_eff

def eta_cell : ℝ := 0.30

def eta_mppt : ℝ := 0.95

def eta_wiring : ℝ := 0.97

def P_max (p : Fin 6) : ℝ := G_sun * A_total p

/-! ### Subsystem loads (source lines 34-38) -/

def P_OBC : ℝ := 0.5

def P_ADCS : ℝ := 0.8

def P_COMMS : ℝ := 0.7

def P_PAYLOAD : ℝ := 0.5

def P_load_nominal : ℝ := P_OBC + P_ADCS + P_COMMS + P_PAYLOAD

/-! ### TX parameters (source lines 43-45) -/

def P_TX : ℝ := 15

def TX_duration : ℝ := 15 * 60

def TX_theta_width : ℝ := 360 * TX_duration / orbit_period

/-! ### Battery parameters (source lines 50-56) -/

def E_battery : ℝ := 10

def SOC_min : ℝ := 0.2

def SOC_max : ℝ := 0.99

def SOC_init : ℝ := 0.6

def fade_rate : ℝ := 0.20

def self_discharge_per_day : ℝ := 0.02 / 30

/-! ### Orbital angle (source line 61)

`theta = 360.0 * (time % orbit_period) / orbit_period`; since
`time[t] = 100 * t` and `orbit_period = 5700` are integers, the float
modulus equals the natural-number modulus. -/

def theta (t : ℕ) : ℝ := 360 * (((100 * t) % 5700 : ℕ) : ℝ) / 5700

/-! ### Per-step geometry (source lines 80-96) -/

/-- Source line 84: `eclipse = 0 if (120 < theta_i < 270) else 1`. -/
noncomputable def eclipse (t : ℕ) : ℕ :=
  if 120 < theta t ∧ theta t < 270 then 0 else 1

/-- Source line 81: `theta_eff = math.radians(theta_i - 45)`. -/
def theta_eff (t : ℕ) : ℝ := (theta t - 45) * Real.pi / 180

/-- Source lines 87-88: `f_theta = 0.6 + 0.4*cos(theta_eff)`,
then `f_theta = max(f_theta, 0.0)`. -/
noncomputable def f_theta (t : ℕ) : ℝ :=
  max (0.6 + 0.4 * Real.cos (theta_eff t)) 0

/-- Source line 91: `mission_days = time[t] / (3600 * 24)`. -/
def mission_days (t : ℕ) : ℝ := timeAt t / (3600 * 24)

/-- Source line 92: `mission_years = mission_days / 365.0`. -/
def mission_years (t : ℕ) : ℝ := mission_days t / 365

/-- Source lines 95-96: linear capacity fade with a 30 percent floor. -/
def E_batt_eff (t : ℕ) : ℝ :=
  max (E_battery * (1 - fade_rate * mission_years t)) (0.3 * E_battery)

/-- The fade law as a function of mission-elapsed years (the body of
`E_batt_eff` with the elapsed time abstracted). -/
def capacityEff (y : ℝ) : ℝ :=
  max (E_battery * (1 - fade_rate * y)) (0.3 * E_battery)

/-! ### Solar power (source lines 101-108) -/

noncomputable def P_solar (t : ℕ) (p : Fin 6) : ℝ :=
  P_max p * eta_cell * eta_mppt * eta_wiring * f_theta t * (eclipse t : ℝ)

/-! ### Load model (source lines 111-129) -/

/-- Source lines 111-114: safe-mode baseline load selection. -/
noncomputable def P_load_base (socPrev : ℝ) : ℝ :=
  if socPrev < 0.30 then P_OBC else P_load_nominal

/-- Source line 118: `E_TX = P_TX * TX_duration / 3600.0`. -/
def E_TX : ℝ := P_TX * TX_duration / 3600

/-- Source line 119: `E_load_TX = P_load_nominal * TX_duration / 3600.0`. -/
def E_load_TX : ℝ := P_load_nominal * TX_duration / 3600

/-- Source line 120: `E_reserve = 0.30 * E_batt_eff`. -/
def E_reserve (t : ℕ) : ℝ := 0.30 * E_batt_eff t

/-- Source lines 122-126: the transmission gate, with
`E_batt_available = SOC[t-1, p] * E_batt_eff` inlined (source line 117). -/
def TX_on (t : ℕ) (socPrev : ℝ) : Prop :=
  eclipse t = 1 ∧ (0 ≤ theta t ∧ theta t ≤ TX_theta_width) ∧
    socPrev * E_batt_eff t - E_load_TX > E_reserve t + E_TX

noncomputable instance (t : ℕ) (socPrev : ℝ) : Decidable (TX_on t socPrev) := by
  unfold TX_on; infer_instance

/-- Source lines 128-129: `if TX_on: P_load += P_TX`. -/
noncomputable def P_load_total (t : ℕ) (socPrev : ℝ) : ℝ :=
  if TX_on t socPrev then P_load_base socPrev + P_TX else P_load_base socPrev

/-! ### Battery update (source lines 132-141) -/

/-- `np.clip(x, lo, hi) = min(hi, max(x, lo))` (saturating, inclusive). -/
def clip (x lo hi : ℝ) : ℝ := min hi (max x lo)

/-- One battery update for time index `t ≥ 1` and configuration `p`,
given the previous-step SOC (source lines 132-141):
`dE = (P_solar - P_load) * dt / 3600`; if `dE > 0` it is scaled by the
charge efficiency `0.95`; the energy is integrated into the SOC, the
self-discharge factor is applied, and the result is clamped. -/
noncomputable def socStep (t : ℕ) (p : Fin 6) (socPrev : ℝ) : ℝ :=
  clip
    ((socPrev +
        (if (P_solar t p - P_load_total t socPrev) * dt / 3600 > 0 then
          0.95 * ((P_solar t p - P_load_total t socPrev) * dt / 3600)
        else
          (P_solar t p - P_load_total t socPrev) * dt / 3600) /
          E_batt_eff t) *
      (1 - self_discharge_per_day * dt / (3600 * 24)))
    SOC_min SOC_max

/-- The SOC trajectory: `SOC[0, p] = SOC_init` (source line 70) and for
`t ≥ 1` the loop body updates from the previous row (source lines 78-141). -/
noncomputable def SOC : ℕ → Fin 6 → ℝ
  | 0, _ => SOC_init
  | t + 1, p => socStep (t + 1) p (SOC t p)

/-! ### Output series (source lines 72-73, 143-145) -/

/-- `P_solar_hist` is zero-initialized (source line 72) and row `t ≥ 1` is
written inside the loop (source line 143). -/
noncomputable def P_solar_hist (t : ℕ) (p : Fin 6) : ℝ :=
  if t = 0 then 0 else P_solar t p

/-- `P_load_hist` is a one-dimensional zero-initialized series (source
line 73).  At each `t ≥ 1` the write `P_load_hist[t] = P_load` happens
after the configuration loop (source line 145), so it stores the leaked
loop variable `P_load`: the fold below threads that variable through the
iterations `p = 0, ..., 5`, each of which overwrites it with the load of
configuration `p`. -/
noncomputable def P_load_hist (t : ℕ) : ℝ :=
  if t = 0 then 0
  else (List.finRange 6).foldl (fun _ p => P_load_total t (SOC (t - 1) p)) 0

end

/-! ### Configuration validation

Modelled from the spec: the script hardcodes all parameters at module
scope and contains no configuration-loading or validation code under
`src/`; the spec excludes parameter/configuration loading as an external
collaborator and requires (section 7) that invalid configurations —
`SOC_min ≥ SOC_max`, `dt ≤ 0`, an empty panel-count list, negative
efficiencies — be rejected with a descriptive configuration error before
any simulation step runs.  The record below collects the recognized
configuration fields (spec section 6) as exact rationals, and
`validateConfig` performs the upfront validation required by the spec. -/

structure Config where
  dt : ℚ
  orbit_period : ℚ
  num_orbits : ℕ
  G_sun : ℚ
  A_panel : ℚ
  packing_eff : ℚ
  num_panels : List ℕ
  eta_cell : ℚ
  eta_mppt : ℚ
  eta_wiring : ℚ
  P_OBC : ℚ
  P_ADCS : ℚ
  P_COMMS : ℚ
  P_PAYLOAD : ℚ
  P_TX : ℚ
  TX_duration : ℚ
  E_battery : ℚ
  SOC_min : ℚ
  SOC_max : ℚ
  SOC_init : ℚ
  fade_rate : ℚ
  self_discharge_per_day : ℚ

/-- Modelled from the spec (section 7): reject each listed class of
invalid configuration with a descriptive error, before simulation. -/
def validateConfig (c : Config) : Except String Unit :=
  if c.SOC_max ≤ c.SOC_min then
    Except.error ("invalid configuration: SOC_min must be strictly below SOC_max")
  else if c.dt ≤ 0 then
    Except.error ("invalid configuration: time step dt must be positive")
  else if c.num_panels = [] then
    Except.error ("invalid configuration: panel-count list must be nonempty")
  else if c.eta_cell < 0 ∨ c.eta_mppt < 0 ∨ c.eta_wiring < 0 then
    Except.error ("invalid configuration: efficiencies must be nonnegative")
  else
    Except.ok ()

/-- Modelled from the spec (section 7): a run validates its configuration
first and only then enters the simulation loop; the `ok` branch stands
for the simulation body, which is total arithmetic and cannot fail. -/
def runSimulation (c : Config) : Except String Unit :=
  match validateConfig c with
  | Except.error msg => Except.error msg
  | Except.ok _ => Except.ok ()

/-- A concrete configuration whose SOC bounds are inverted (invalid); the
remaining fields are the values hardcoded by the script. -/
def sampleBadConfig : Config :=
  ⟨100, 5700, 100, 1361, 1/100, 1/2, [1, 2, 3, 4, 5, 6], 3/10, 19/20,
    97/100, 1/2, 4/5, 7/10, 1/2, 15, 900, 10, 3/5, 1/2, 3/5, 1/5, 1/1500⟩

/-! ## Helper lemmas -/

lemma clip_le_hi (x lo hi : ℝ) : clip x lo hi ≤ hi := min_le_left _ _

lemma lo_le_clip (x lo hi : ℝ) (h : lo ≤ hi) : lo ≤ clip x lo hi :=
  le_min h (le_max_right _ _)

lemma SOC_succ (t : ℕ) (p : Fin 6) : SOC (t + 1) p = socStep (t + 1) p (SOC t p) := rfl

lemma SOC_bounds (t : ℕ) (p : Fin 6) : SOC_min ≤ SOC t p ∧ SOC t p ≤ SOC_max := by
  induction t with
  | zero =>
      constructor <;> norm_num [SOC, SOC_init, SOC_min, SOC_max]
  | succ n _ =>
      rw [SOC_succ]
      unfold socStep
      exact ⟨lo_le_clip _ _ _ (by norm_num [SOC_min, SOC_max]), clip_le_hi _ _ _⟩

lemma mission_years_nonneg (t : ℕ) : 0 ≤ mission_years t := by
  unfold mission_years mission_days timeAt dt
  positivity

lemma E_batt_eff_ge (t : ℕ) : (3 : ℝ) ≤ E_batt_eff t := by
  unfold E_batt_eff E_battery
  have h := le_max_right ((10 : ℝ) * (1 - fade_rate * mission_years t)) ((0.3 : ℝ) * 10)
  linarith

lemma E_batt_eff_pos (t : ℕ) : (0 : ℝ) < E_batt_eff t := lt_of_lt_of_le (by norm_num) (E_batt_eff_ge t)

lemma P_load_base_lb (s : ℝ) : (0.5 : ℝ) ≤ P_load_base s := by
  unfold P_load_base P_load_nominal P_OBC P_ADCS P_COMMS P_PAYLOAD
  split <;> norm_num

lemma P_load_base_ub (s : ℝ) : P_load_base s ≤ 2.5 := by
  unfold P_load_base P_load_nominal P_OBC P_ADCS P_COMMS P_PAYLOAD
  split <;> norm_num

lemma P_load_total_lb (t : ℕ) (s : ℝ) : (0.5 : ℝ) ≤ P_load_total t s := by
  unfold P_load_total
  split
  · have h1 := P_load_base_lb s
    unfold P_TX
    linarith
  · exact P_load_base_lb s

lemma P_load_total_ub (t : ℕ) (s : ℝ) : P_load_total t s ≤ 17.5 := by
  unfold P_load_total
  split
  · have h1 := P_load_base_ub s
    unfold P_TX
    linarith
  · have h1 := P_load_base_ub s
    linarith

lemma theta_zero : theta 0 = 0 := by norm_num [theta]

lemma eclipse_zero : eclipse 0 = 1 := by
  unfold eclipse
  simp only [theta_zero]
  norm_num

lemma theta_thirty : theta 30 = 3600 / 19 := by
  unfold theta
  norm_num

lemma sqrt_two_bounds : (1.414213 : ℝ) < Real.sqrt 2 ∧ Real.sqrt 2 < 1.414214 := by
  constructor
  · rw [show (2 : ℝ) = 2 from rfl, Real.lt_sqrt (by norm_num)]
    norm_num
  · rw [Real.sqrt_lt' (by norm_num)]
    norm_num

lemma f_theta_zero : f_theta 0 = 0.6 + 0.2 * Real.sqrt 2 := by
  unfold f_theta theta_eff
  rw [theta_zero]
  have h1 : ((0 : ℝ) - 45) * Real.pi / 180 = -(Real.pi / 4) := by ring
  rw [h1, Real.cos_neg, Real.cos_pi_div_four]
  rw [max_eq_left (by positivity)]
  ring

lemma num_panels_three : num_panels 3 = 4 := rfl

lemma P_solar_zero_val :
    P_solar 0 3 = 1361 * 0.02 * 0.30 * 0.95 * 0.97 * (0.6 + 0.2 * Real.sqrt 2) := by
  unfold P_solar P_max A_total G_sun eta_cell eta_mppt eta_wiring A_panel packing_eff
  rw [eclipse_zero, f_theta_zero, num_panels_three]
  push_cast
  ring

/-! ## Claim theorems -/

/-- C1: the initial SOC value lies within `[SOC_min, SOC_max]`, and for
every time index `t` and panel configuration `p` the stored state of
charge satisfies `SOC_min ≤ SOC[t, p] ≤ SOC_max`; each per-step update
re-establishes the bound by inclusive (saturating) clamping. -/
theorem soc_clamp_invariant :
    (SOC_min ≤ SOC_init ∧ SOC_init ≤ SOC_max) ∧
    (∀ (t : ℕ) (p : Fin 6), SOC_min ≤ SOC t p ∧ SOC t p ≤ SOC_max) ∧
    (∀ x lo hi : ℝ, lo ≤ hi → lo ≤ clip x lo hi ∧ clip x lo hi ≤ hi) := by
  refine ⟨by norm_num [SOC_min, SOC_init, SOC_max], SOC_bounds, ?_⟩
  intro x lo hi h
  exact ⟨lo_le_clip _ _ _ h, clip_le_hi _ _ _⟩

/-- C1 witness: the saturating clamp re-establishes the bounds at a
concrete out-of-range input. -/
theorem soc_clamp_invariant_witness :
    (0 : ℝ) ≤ 1 ∧ (0 : ℝ) ≤ clip 5 0 1 ∧ clip (5 : ℝ) 0 1 ≤ 1 := by
  have h := soc_clamp_invariant.2.2 5 0 1 (by norm_num)
  exact ⟨by norm_num, h.1, h.2⟩

/-- C2: for every simulated step `t + 1` and configuration `p`, the new
SOC equals the clamp of `(SOC_prev + dE' / capacity_eff)` times the
self-discharge factor `(1 - self_discharge_per_day * dt / 86400)`, where
`dE = (solar - load) * dt / 3600` and `dE' = 0.95 * dE` exactly when
`dE > 0`; the self-discharge multiplier is applied every step, after the
energy update and before clamping. -/
theorem soc_update_formula (t : ℕ) (p : Fin 6) :
    SOC (t + 1) p =
      clip
        ((SOC t p +
            (if (P_solar (t + 1) p - P_load_total (t + 1) (SOC t p)) * dt / 3600 > 0 then
              0.95 * ((P_solar (t + 1) p - P_load_total (t + 1) (SOC t p)) * dt / 3600)
            else
              (P_solar (t + 1) p - P_load_total (t + 1) (SOC t p)) * dt / 3600) /
              E_batt_eff (t + 1)) *
          (1 - self_discharge_per_day * dt / 86400))
        SOC_min SOC_max := by
  rw [SOC_succ]
  unfold socStep
  norm_num

/-- C3: for every simulated step `t + 1` and configuration `p`, the
recorded solar power equals
`solar_constant * total_area * cell_eff * MPPT_eff * wiring_eff *
projection * eclipse_flag`; the eclipse flag is `0` exactly when the
orbital angle lies in the open interval `(120, 270)` and `1` otherwise;
in eclipse the solar power is exactly `0`, and it is always `≥ 0`. -/
theorem solar_power_model (t : ℕ) (p : Fin 6) :
    P_solar_hist (t + 1) p =
      G_sun * A_total p * eta_cell * eta_mppt * eta_wiring * f_theta (t + 1) *
        (eclipse (t + 1) : ℝ) ∧
    (eclipse (t + 1) = 0 ↔ 120 < theta (t + 1) ∧ theta (t + 1) < 270) ∧
    (120 < theta (t + 1) → theta (t + 1) < 270 → P_solar_hist (t + 1) p = 0) ∧
    0 ≤ P_solar_hist (t + 1) p := by
  have hne : (t + 1 : ℕ) ≠ 0 := Nat.succ_ne_zero t
  have hh : P_solar_hist (t + 1) p = P_solar (t + 1) p := by
    unfold P_solar_hist
    rw [if_neg hne]
  have hecl : eclipse (t + 1) = 0 ↔ 120 < theta (t + 1) ∧ theta (t + 1) < 270 := by
    unfold eclipse
    split
    · simp_all
    · simp_all
  refine ⟨?_, hecl, ?_, ?_⟩
  · rw [hh]
    unfold P_solar P_max
    ring
  · intro h1 h2
    rw [hh]
    unfold P_solar
    rw [hecl.mpr ⟨h1, h2⟩]
    norm_num
  · rw [hh]
    unfold P_solar
    have h1 : (0 : ℝ) ≤ P_max p := by
      unfold P_max A_total G_sun A_panel packing_eff
      positivity
    have h2 : (0 : ℝ) ≤ f_theta (t + 1) := le_max_right _ _
    have h3 : (0 : ℝ) ≤ (eclipse (t + 1) : ℝ) := Nat.cast_nonneg _
    have h4 : (0 : ℝ) ≤ eta_cell := by norm_num [eta_cell]
    have h5 : (0 : ℝ) ≤ eta_mppt := by norm_num [eta_mppt]
    have h6 : (0 : ℝ) ≤ eta_wiring := by norm_num [eta_wiring]
    exact mul_nonneg (mul_nonneg (mul_nonneg (mul_nonneg (mul_nonneg h1 h4) h5) h6) h2) h3

/-- C3 witness: time index 30 has orbital angle `3600/19 ≈ 189.5`, inside
the eclipse interval, and the recorded solar power there is zero. -/
theorem solar_power_model_witness :
    P_solar_hist (29 + 1) 0 = 0 ∧ 0 ≤ P_solar_hist (29 + 1) 0 := by
  have h := solar_power_model 29 0
  have h1 : (120 : ℝ) < theta (29 + 1) := by
    rw [show (29 + 1 : ℕ) = 30 from rfl, theta_thirty]
    norm_num
  have h2 : theta (29 + 1) < 270 := by
    rw [show (29 + 1 : ℕ) = 30 from rfl, theta_thirty]
    norm_num
  exact ⟨h.2.2.1 h1 h2, h.2.2.2⟩

/-- C4: for every simulated step `t + 1` and configuration `p`,
transmission power is added on top of the baseline load exactly when the
eclipse flag is `1`, the orbital angle lies in `[0, TX_theta_width]` with
`TX_theta_width = 360 * TX_duration / orbit_period`, and the available
battery energy `SOC_prev * capacity_eff` minus the nominal-load energy
over the transmission duration strictly exceeds the 30-percent reserve of
the effective capacity plus the transmission energy cost. -/
theorem tx_gating (t : ℕ) (p : Fin 6) :
    P_load_total (t + 1) (SOC t p) = P_load_base (SOC t p) + P_TX ↔
      (eclipse (t + 1) = 1 ∧
        (0 ≤ theta (t + 1) ∧ theta (t + 1) ≤ 360 * TX_duration / orbit_period) ∧
        SOC t p * E_batt_eff (t + 1) - P_load_nominal * TX_duration / 3600 >
          0.30 * E_batt_eff (t + 1) + P_TX * TX_duration / 3600) := by
  have hrhs : (eclipse (t + 1) = 1 ∧
      (0 ≤ theta (t + 1) ∧ theta (t + 1) ≤ 360 * TX_duration / orbit_period) ∧
      SOC t p * E_batt_eff (t + 1) - P_load_nominal * TX_duration / 3600 >
        0.30 * E_batt_eff (t + 1) + P_TX * TX_duration / 3600) ↔
      TX_on (t + 1) (SOC t p) := by
    unfold TX_on TX_theta_width E_load_TX E_reserve E_TX
    exact Iff.rfl
  rw [hrhs]
  unfold P_load_total
  by_cases h : TX_on (t + 1) (SOC t p)
  · simp [h]
  · rw [if_neg h]
    constructor
    · intro hcontra
      exfalso
      have hz : P_TX = 0 := by linarith
      norm_num [P_TX] at hz
    · intro hc
      exact absurd hc h

/-- C5: for every simulated step `t + 1` and configuration `p`, the
baseline load is the OBC-only power exactly when the previous-step SOC is
strictly below `0.30`, and otherwise the sum of the four nominal
subsystem loads; at previous SOC `0.25` it is `0.5` W, and at exactly
`0.30` the safe mode does not trigger. -/
theorem safe_mode_threshold (t : ℕ) (p : Fin 6) :
    (P_load_base (SOC t p) = P_OBC ↔ SOC t p < 0.30) ∧
    (P_load_base (SOC t p) = P_OBC + P_ADCS + P_COMMS + P_PAYLOAD ↔ ¬ SOC t p < 0.30) ∧
    P_load_base 0.25 = 0.5 ∧ P_OBC = 0.5 ∧ P_load_base 0.30 = P_load_nominal := by
  have hne : P_load_nominal ≠ P_OBC := by
    norm_num [P_load_nominal, P_OBC, P_ADCS, P_COMMS, P_PAYLOAD]
  have hOBCne : P_OBC ≠ P_OBC + P_ADCS + P_COMMS + P_PAYLOAD := by
    norm_num [P_OBC, P_ADCS, P_COMMS, P_PAYLOAD]
  have hsum : P_load_nominal = P_OBC + P_ADCS + P_COMMS + P_PAYLOAD := rfl
  refine ⟨?_, ?_, ?_, rfl, ?_⟩
  · unfold P_load_base
    split
    · next h => simp [h]
    · next h => simp [h, hne]
  · unfold P_load_base
    split
    · next h => simp [h, hOBCne]
    · next h => simp [h, hsum]
  · unfold P_load_base
    rw [if_pos (by norm_num)]
    norm_num [P_OBC]
  · unfold P_load_base
    rw [if_neg (by norm_num)]

/-- C7: the emitted load-power output is a single per-time-step series;
for every step `t + 1` its value is the load power computed for the last
panel configuration (index 5) processed at that step — the final write of
the loop variable wins — while the solar-power output is recorded per
(time, configuration). -/
theorem load_hist_last_config (t : ℕ) :
    P_load_hist (t + 1) = P_load_total (t + 1) (SOC t 5) ∧
    (∀ p : Fin 6, P_solar_hist (t + 1) p = P_solar (t + 1) p) := by
  constructor
  · unfold P_load_hist
    rw [if_neg (Nat.succ_ne_zero t)]
    have h6 : List.finRange 6 = [0, 1, 2, 3, 4, 5] := by decide
    rw [h6]
    simp only [List.foldl]
    norm_num
  · intro q
    unfold P_solar_hist
    rw [if_neg (Nat.succ_ne_zero t)]

/-- C8: the effective battery capacity equals
`max (capacity_nominal * (1 - fade_rate * mission_years)) (0.3 * capacity_nominal)`;
it is non-increasing in mission time (in particular at one mission year
it is at most the initial capacity) and never falls below 30 percent of
the nominal capacity. -/
theorem capacity_fade_props :
    (∀ t : ℕ, E_batt_eff t =
      max (E_battery * (1 - fade_rate * mission_years t)) (0.3 * E_battery)) ∧
    (∀ y z : ℝ, y ≤ z → capacityEff z ≤ capacityEff y) ∧
    capacityEff 1 ≤ capacityEff 0 ∧
    (∀ y : ℝ, 0.3 * E_battery ≤ capacityEff y) := by
  have hmono : ∀ y z : ℝ, y ≤ z → capacityEff z ≤ capacityEff y := by
    intro y z h
    unfold capacityEff
    refine max_le_max ?_ le_rfl
    unfold E_battery fade_rate
    nlinarith
  exact ⟨fun t => rfl, hmono, hmono 0 1 (by norm_num), fun y => le_max_right _ _⟩

/-- C8 witness: monotone fade instantiated at mission years 0 and 1. -/
theorem capacity_fade_props_witness :
    (0 : ℝ) ≤ 1 ∧ capacityEff 1 ≤ capacityEff 0 :=
  ⟨by norm_num, capacity_fade_props.2.1 0 1 (by norm_num)⟩

/-- C6: every invalid configuration — inverted SOC bounds, nonpositive
time step, empty panel-count list, or a negative efficiency — is rejected
with a descriptive configuration error before the simulation starts, and
no simulation step executes on it.  (The validator is modelled from the
spec: the script under `src/` hardcodes its parameters and has no
configuration-loading code.) -/
theorem invalid_config_rejected (c : Config)
    (h : c.SOC_max ≤ c.SOC_min ∨ c.dt ≤ 0 ∨ c.num_panels = [] ∨
      c.eta_cell < 0 ∨ c.eta_mppt < 0 ∨ c.eta_wiring < 0) :
    ∃ msg : String, validateConfig c = Except.error msg ∧
      runSimulation c = Except.error msg := by
  have hval : ∃ msg : String, validateConfig c = Except.error msg := by
    unfold validateConfig
    split_ifs with h1 h2 h3 h4
    · exact ⟨_, rfl⟩
    · exact ⟨_, rfl⟩
    · exact ⟨_, rfl⟩
    · exact ⟨_, rfl⟩
    · exfalso
      rcases h with h | h | h | h | h | h
      · exact h1 h
      · exact h2 h
      · exact h3 h
      · exact h4 (Or.inl h)
      · exact h4 (Or.inr (Or.inl h))
      · exact h4 (Or.inr (Or.inr h))
  obtain ⟨msg, hm⟩ := hval
  refine ⟨msg, hm, ?_⟩
  unfold runSimulation
  rw [hm]

/-- C6 witness: a configuration with inverted SOC bounds is rejected and
the simulation is never entered. -/
theorem invalid_config_rejected_witness :
    ∃ msg : String, validateConfig sampleBadConfig = Except.error msg ∧
      runSimulation sampleBadConfig = Except.error msg :=
  invalid_config_rejected sampleBadConfig (Or.inl (by norm_num [sampleBadConfig]))

/-- C9 counterexample: at time index 0 with the 4-panel configuration,
the solar power of the model is not approximately `6.60` W — it differs
from `6.60` by more than `0.04`. -/
theorem scenario_t0_solar_claim_false : ¬ |P_solar 0 3 - 6.60| < 0.04 := by
  rw [P_solar_zero_val, not_lt, le_abs]
  left
  nlinarith [sqrt_two_bounds.1]

/-- C9 (amended): with `dt = 100` s and `orbit_period = 5700` s, at time
index 0 the orbital angle is 0, the eclipse flag is 1, the projection
factor is `0.6 + 0.4 * cos(radians(-45)) ≈ 0.8828`, and with the 4-panel
configuration (total area `0.02` m², raw power `27.22` W) the solar power
of the model at time 0 is `27.22 * 0.30 * 0.95 * 0.97 * 0.8828... ≈ 6.64`
W (not `6.60` W). -/
theorem scenario_t0_solar :
    theta 0 = 0 ∧ eclipse 0 = 1 ∧
    f_theta 0 = 0.6 + 0.4 * Real.cos ((0 - 45) * Real.pi / 180) ∧
    |f_theta 0 - 0.8828| < 0.0001 ∧
    A_total 3 = 0.02 ∧ P_max 3 = 27.22 ∧
    P_solar 0 3 = 27.22 * 0.30 * 0.95 * 0.97 * f_theta 0 ∧
    |P_solar 0 3 - 6.64| < 0.005 := by
  have hA : A_total 3 = 0.02 := by
    unfold A_total A_panel packing_eff
    rw [num_panels_three]
    norm_num
  have hP : P_max 3 = 27.22 := by
    unfold P_max G_sun
    rw [hA]
    norm_num
  refine ⟨theta_zero, eclipse_zero, ?_, ?_, hA, hP, ?_, ?_⟩
  · unfold f_theta theta_eff
    rw [theta_zero]
    have hc := Real.neg_one_le_cos (((0 : ℝ) - 45) * Real.pi / 180)
    rw [max_eq_left (by linarith)]
  · rw [f_theta_zero, abs_lt]
    constructor <;> nlinarith [sqrt_two_bounds.1, sqrt_two_bounds.2]
  · unfold P_solar
    rw [eclipse_zero, hP]
    unfold eta_cell eta_mppt eta_wiring
    push_cast
    ring_nf
  · rw [P_solar_zero_val, abs_lt]
    constructor <;> nlinarith [sqrt_two_bounds.1, sqrt_two_bounds.2]

/-- C10: at every simulated step `t + 1` whose orbital angle lies in the
open eclipse interval `(120, 270)`, the updated SOC never exceeds the
previous one: solar power is zero, the load is positive, self-discharge
only shrinks the nonnegative intermediate SOC, and the lower clamp bound
is at most the previous in-bounds value. -/
theorem eclipse_soc_nonincreasing (t : ℕ) (p : Fin 6)
    (h1 : 120 < theta (t + 1)) (h2 : theta (t + 1) < 270) :
    SOC (t + 1) p ≤ SOC t p := by
  have hecl : eclipse (t + 1) = 0 := by
    unfold eclipse
    rw [if_pos ⟨h1, h2⟩]
  have hsolar : P_solar (t + 1) p = 0 := by
    unfold P_solar
    rw [hecl]
    norm_num
  have hsb := SOC_bounds t p
  have hs02 : (0.2 : ℝ) ≤ SOC t p := by
    have h := hsb.1
    norm_num [SOC_min] at h
    linarith
  have hcap := E_batt_eff_ge (t + 1)
  have hcap0 := E_batt_eff_pos (t + 1)
  have hLlb := P_load_total_lb (t + 1) (SOC t p)
  have hLub := P_load_total_ub (t + 1) (SOC t p)
  rw [SOC_succ]
  unfold socStep
  set L := P_load_total (t + 1) (SOC t p) with hL
  have hdE0 : (P_solar (t + 1) p - L) * dt / 3600 ≤ 0 := by
    rw [hsolar]
    unfold dt
    nlinarith
  rw [if_neg (not_lt.mpr hdE0)]
  set d := (P_solar (t + 1) p - L) * dt / 3600 with hd
  have hdlb : -(35 / 72 : ℝ) ≤ d := by
    rw [hd, hsolar]
    unfold dt
    nlinarith
  set q := d / E_batt_eff (t + 1) with hq
  have hq0 : q ≤ 0 := by
    rw [hq]
    exact div_nonpos_iff.mpr (Or.inr ⟨hdE0, le_of_lt hcap0⟩)
  have hmul : q * E_batt_eff (t + 1) = d := by
    rw [hq]
    exact div_mul_cancel₀ _ (ne_of_gt hcap0)
  have hkey : 0 ≤ SOC t p + q := by
    have hprod : 0 ≤ (-q) * (E_batt_eff (t + 1) - 3) :=
      mul_nonneg (neg_nonneg.mpr hq0) (by linarith)
    nlinarith [hprod, hmul, hdlb, hs02]
  have hfac1 : (1 - self_discharge_per_day * dt / (3600 * 24)) ≤ 1 := by
    unfold self_discharge_per_day dt
    norm_num
  have hs2 : (SOC t p + q) * (1 - self_discharge_per_day * dt / (3600 * 24)) ≤ SOC t p + q :=
    mul_le_of_le_one_right hkey hfac1
  unfold clip
  apply le_trans (min_le_right _ _)
  apply max_le
  · linarith
  · exact hsb.1

/-- C10 witness: time index 30 lies in eclipse (angle `3600/19 ≈ 189.5`)
and the SOC there does not exceed the SOC at index 29. -/
theorem eclipse_soc_nonincreasing_witness : SOC (29 + 1) 0 ≤ SOC 29 0 := by
  have h1 : (120 : ℝ) < theta (29 + 1) := by
    rw [show (29 + 1 : ℕ) = 30 from rfl, theta_thirty]
    norm_num
  have h2 : theta (29 + 1) < 270 := by
    rw [show (29 + 1 : ℕ) = 30 from rfl, theta_thirty]
    norm_num
  exact eclipse_soc_nonincreasing 29 0 h1 h2

end EPS
